import Mathlib

/-!
Verification of the Numrow pricing, payment-settlement and number-lifecycle
engine against its specification.

The definitions below are a shallow embedding of the Python sources:

* `src/workers/pricing_worker.py`  — price calculator and quoting engine
* `src/workers/payment_worker.py`  — Paystack webhook reconciler
* `src/workers/sms_worker.py`      — SMS polling / deduplication worker
* `src/workers/rental_worker.py`   — rental expiry worker
* `src/run.py`                     — webhook HTTP handler status mapping

Python `Decimal` arithmetic is modelled over `ℚ` (the shipped configuration,
markup 100 %, makes the Python float/Decimal round trip exact), `datetime`
values as POSIX seconds (`ℤ`), Redis as explicit state threaded through each
call, and the two external HTTP collaborators (Paystack, the PVA provider) as
oracle functions in an environment record.
-/

namespace Numrow

/-! ### Configuration (src/config/settings.py, src/config/constants.py) -/

/-- Modelled from the spec: the pydantic `Settings` record (its module is in
the repository, the values are environment-configurable; 100 and 1600 are the
shipped defaults). Only the two pricing fields matter to the core. -/
structure Settings where
  PRICE_MARKUP_PERCENTAGE : ℚ
  FX_RATE_CAP : ℚ
deriving Repr

/-- Default settings values from `src/config/settings.py`. -/
def defaultSettings : Settings := { PRICE_MARKUP_PERCENTAGE := 100, FX_RATE_CAP := 1600 }

/-- `DEFAULT_TEMP_DURATION_MINUTES` from `src/config/constants.py`. -/
def DEFAULT_TEMP_DURATION_MINUTES : Int := 15

/-! ### Price calculator (`_calculate_final_ngn`, src/workers/pricing_worker.py lines 22-39) -/

/-- Embedding of `_calculate_final_ngn`: apply the configured markup, convert
with the (already capped) FX rate, and round up to the nearest 10 NGN.
`int(math.ceil(x / 10)) * 10` is `⌈x / 10⌉ * 10` over `ℚ`. -/
def calculate_final_ngn (settings : Settings) (pva_usd_price fx_rate_to_use : ℚ) : ℤ :=
  let markup_multiplier : ℚ := 1 + settings.PRICE_MARKUP_PERCENTAGE / 100
  let final_usd := pva_usd_price * markup_multiplier
  let final_ngn_unrounded := final_usd * fx_rate_to_use
  ⌈final_ngn_unrounded / 10⌉ * 10

/-! ### Pricing engine (`get_final_ngn_price`, src/workers/pricing_worker.py lines 41-79) -/

/-- External collaborators of the pricing engine: the PVA price endpoint
(`pva_service.get_prices`, returning the `cost_usd` field or nothing) and the
live FX feed (`_get_live_fx_rate`), plus the configuration. -/
structure PricingEnv where
  getPrices : String → String → Option ℚ
  liveFxRate : ℚ
  settings : Settings

/-- Redis state visible to the pricing engine: the `pricing:*` cache entries
that are currently live (within TTL), plus a counter of upstream PVA price
fetches performed, used to state "no second upstream call". -/
structure PricingState where
  cache : List (String × Int)
  upstreamFetches : Nat
deriving Repr, DecidableEq

/-- Redis `get` on the quote cache. The worker stores only positive integer
prices, for which Python's string-truthiness test on the cached value is
exactly presence of the key. -/
def cacheLookup (cache : List (String × Int)) (k : String) : Option Int :=
  (cache.find? (fun e => e.fst == k)).map (fun e => e.snd)

/-- Embedding of `get_final_ngn_price`: check the cache, on a miss fetch the
upstream USD cost, cap the live FX rate, price, and store positive results.
Returns the `(final price, cache key)` pair together with the updated state. -/
def get_final_ngn_price (env : PricingEnv) (st : PricingState)
    (country_id service_id number_type : String) :
    (Option Int × Option String) × PricingState :=
  let cache_key := "pricing:" ++ country_id ++ ":" ++ service_id ++ ":" ++ number_type
  match cacheLookup st.cache cache_key with
  | some cached_price => ((some cached_price, some cache_key), st)
  | none =>
    let st1 : PricingState := { st with upstreamFetches := st.upstreamFetches + 1 }
    match env.getPrices country_id service_id with
    | none => ((none, none), st1)
    | some pva_usd_price =>
      let fx_rate_to_use := min env.liveFxRate env.settings.FX_RATE_CAP
      let final_ngn := calculate_final_ngn env.settings pva_usd_price fx_rate_to_use
      if final_ngn ≤ 0 then ((none, none), st1)
      else ((some final_ngn, some cache_key),
            { st1 with cache := (cache_key, final_ngn) :: st1.cache })

end Numrow

namespace Numrow

/-! ### Persistent entities (src/models) -/

/-- Modelled from the spec: the `Payment` ORM model (`models/payment.py` is
referenced by the workers but absent from the sources; fields follow the spec
data model and every access site in `payment_worker.py`). `amountNgn` is the
kobo amount (`amount_ngn`), `userTelegramId` flattens the loaded
`payment.user.telegram_id` relationship. -/
structure Payment where
  id : Nat
  userId : Nat
  userTelegramId : Nat
  amountNgn : Int
  status : String
  paystackRef : String
  lockedPriceRef : String
deriving Repr, DecidableEq

/-- Embedding of the `Number` ORM model (src/models/number.py) together with
the `is_rent` and `renewal_notice_sent` attributes the workers read and
write.  `expiresAt` is the POSIX timestamp (seconds) of `expires_at`. -/
structure Number where
  id : Int
  phoneNumber : String
  pvaActivationId : String
  serviceCode : String
  countryCode : String
  status : String
  isRent : Bool
  expiresAt : Int
  renewalNoticeSent : Bool
  userId : Nat
  paymentId : Nat
deriving Repr, DecidableEq

/-- Embedding of the `Sms` ORM model (src/models/sms.py). -/
structure Sms where
  numberId : Int
  pvaSmsId : String
  fullText : String
  verificationCode : String
deriving Repr, DecidableEq

/-! ### Webhook reconciler (`process_webhook_event`, src/workers/payment_worker.py lines 45-145) -/

/-- A country entry as produced by `pva_service.get_countries`. -/
structure Country where
  id : String
  name : String
deriving Repr, DecidableEq

/-- The dictionary returned by a successful `pva_service.buy_number`. -/
structure PurchasedNumberInfo where
  phone_number : String
  activation_id : String
deriving Repr, DecidableEq

/-- External collaborators of the webhook reconciler: the Paystack
verification endpoint (`None` models a transport/protocol failure of
`PaystackService.verify_transaction`), the PVA country list, renew and
purchase endpoints, and the wall clock (`datetime.now`, POSIX seconds). -/
structure WebhookEnv where
  verify_transaction : String → Option (String × Int)
  get_countries : Bool → List Country
  renew_rental_number : String → String → Option String → String → Bool
  buy_number : String → String → String → Bool → Option PurchasedNumberInfo
  now : Int

/-- The `data` object of a Paystack webhook body. The handler reads only
`reference`; `amount` is carried to state that the body's claimed amount is
never consulted. -/
structure WebhookData where
  reference : Option String
  amount : Option Int

/-- A parsed webhook payload: `payload.get("event")` and
`payload.get("data")`. -/
structure WebhookPayload where
  event : Option String
  data : Option WebhookData

/-- The persistent store as seen by the reconciler. `nextNumberId` supplies
the autoincremented primary key of a freshly inserted `Number` row. -/
structure DB where
  payments : List Payment
  numbers : List Number
  nextNumberId : Int
deriving Repr, DecidableEq

/-- Counters for the observable side effects of one handler invocation. -/
structure WebhookEffects where
  verifyCalls : Nat
  renewCalls : Nat
  buyCalls : Nat
  messagesSent : Nat
deriving Repr, DecidableEq

/-- No side effects yet. -/
def WebhookEffects.zero : WebhookEffects :=
  { verifyCalls := 0, renewCalls := 0, buyCalls := 0, messagesSent := 0 }

/-- Result of one `process_webhook_event` call: the Python return value
(`Except.error ()` models an exception escaping the handler), the store
after all commits, and the side-effect counters. -/
structure WebhookOutcome where
  result : Except Unit Bool
  db : DB
  effects : WebhookEffects

/-- The `select(Payment).where(Payment.paystack_ref == reference)` lookup
(`scalar_one_or_none` under the unique-reference constraint). -/
def findPayment (payments : List Payment) (reference : String) : Option Payment :=
  payments.find? (fun q => q.paystackRef == reference)

/-- ORM update of the looked-up Payment row: every row holding the (unique)
reference gets the new status. -/
def updatePaymentStatus (payments : List Payment) (reference status : String) : List Payment :=
  payments.map (fun q => if q.paystackRef == reference then { q with status := status } else q)

/-- `session.get(Number, id)` — primary-key lookup. -/
def findNumber (numbers : List Number) (nid : Int) : Option Number :=
  numbers.find? (fun n => n.id == nid)

/-- The `next((c['name'] for c in countries if c['id'] == code), None)`
pattern used by all three workers. -/
def countryName (countries : List Country) (code : String) : Option String :=
  (countries.find? (fun c => c.id == code)).map (fun c => c.name)

/-- Python `str.split(sep)` over the character list (single-character
separator, as used with `':'` by the worker). -/
def splitOnChar (sep : Char) : List Char → List (List Char)
  | [] => [[]]
  | c :: cs =>
    if c = sep then [] :: splitOnChar sep cs
    else
      match splitOnChar sep cs with
      | [] => [[c]]
      | t :: ts => (c :: t) :: ts

/-- Python `s.split(sep)`. -/
def py_split (s : String) (sep : Char) : List String :=
  (splitOnChar sep s.data).map String.mk

/-- Python `s.startswith(pre)`. -/
def py_startswith (s pre : String) : Bool :=
  pre.data.isPrefixOf s.data

/-- Decimal digit accumulator for `py_int?`. -/
def digitsToNat (acc : Nat) : List Char → Option Nat
  | [] => some acc
  | c :: cs => if c.isDigit then digitsToNat (acc * 10 + (c.toNat - 48)) cs else none

/-- Python `int(s)` restricted to an optional minus sign followed by decimal
digits, returning `none` where `int()` raises `ValueError`. -/
def py_int? (s : String) : Option Int :=
  match s.data with
  | [] => none
  | '-' :: cs =>
    match cs with
    | [] => none
    | _ => (digitsToNat 0 cs).map (fun n => -(n : Int))
  | cs => (digitsToNat 0 cs).map (fun n => (n : Int))

/-- The per-row ORM update performed on a renewed Number (lines 88-92):
extend `expires_at` by `timedelta(days=3)` (259200 s) from the fetched row's
value and clear the renewal-notice flag. -/
def renew_number_update (number_to_renew : Number) (m : Number) : Number :=
  if m.id == number_to_renew.id then
    { m with expiresAt := number_to_renew.expiresAt + 259200, renewalNoticeSent := false }
  else m

/-- The `Number` row inserted after a successful purchase (lines 114-130):
expiry is 3 days for a rental, `DEFAULT_TEMP_DURATION_MINUTES` for a
temporary number, and the row links the funding payment and user. -/
def purchased_number (env : WebhookEnv) (db : DB) (payment : Payment)
    (country_id service_id : String) (is_rent : Bool)
    (info : PurchasedNumberInfo) : Number :=
  let expiry_delta : Int := if is_rent then 259200 else DEFAULT_TEMP_DURATION_MINUTES * 60
  { id := db.nextNumberId, phoneNumber := info.phone_number,
    pvaActivationId := info.activation_id, serviceCode := service_id,
    countryCode := country_id, status := "active", isRent := is_rent,
    expiresAt := env.now + expiry_delta, renewalNoticeSent := false,
    userId := payment.userId, paymentId := payment.id }

/-- Embedding of the provisioning block of `process_webhook_event`
(lines 70-144), entered after the Payment was committed `successful`.
`db` is the store containing that commit and `payment` the in-memory row.
Branches returning `.ok false` without further changes correspond to the
`return False` exits and to exceptions caught by the `except` clause at the
bottom of the function (ValueError or IndexError while parsing the locked
price reference). -/
def provision_after_success (env : WebhookEnv) (db : DB) (payment : Payment)
    (fx : WebhookEffects) : WebhookOutcome :=
  if py_startswith payment.lockedPriceRef "renewal:" then
    match ((py_split payment.lockedPriceRef ':')[1]?).bind py_int? with
    | none => ⟨.ok false, db, fx⟩
    | some nid =>
      match findNumber db.numbers nid with
      | none => ⟨.ok false, db, fx⟩
      | some number_to_renew =>
        let cname := countryName (env.get_countries true) number_to_renew.countryCode
        let success := env.renew_rental_number number_to_renew.serviceCode
          number_to_renew.countryCode cname number_to_renew.phoneNumber
        let fx1 := { fx with renewCalls := fx.renewCalls + 1 }
        if success then
          let db1 := { db with numbers := db.numbers.map (renew_number_update number_to_renew) }
          ⟨.ok true, db1, { fx1 with messagesSent := fx1.messagesSent + 1 }⟩
        else
          ⟨.ok true, db, { fx1 with messagesSent := fx1.messagesSent + 1 }⟩
  else
    let parts := py_split payment.lockedPriceRef ':'
    match parts[1]?, parts[2]?, parts[3]? with
    | some country_id, some service_id, some number_type =>
      let is_rent := number_type == "rent"
      match countryName (env.get_countries is_rent) country_id with
      | none => ⟨.ok false, db, fx⟩
      | some cname =>
        let fx1 := { fx with buyCalls := fx.buyCalls + 1 }
        match env.buy_number service_id country_id cname is_rent with
        | some info =>
          ⟨.ok true,
           { db with
             numbers := db.numbers ++
               [purchased_number env db payment country_id service_id is_rent info],
             nextNumberId := db.nextNumberId + 1 },
           { fx1 with messagesSent := fx1.messagesSent + 1 }⟩
        | none => ⟨.ok true, db, { fx1 with messagesSent := fx1.messagesSent + 1 }⟩
    | _, _, _ => ⟨.ok false, db, fx⟩

/-- Embedding of `process_webhook_event` (src/workers/payment_worker.py
lines 45-145).  The two `.error ()` exits model uncaught exceptions: an
`AttributeError` when the payload has no `data` object, and the `TypeError`
raised by unpacking a `None` verification result on line 56. -/
def process_webhook_event (env : WebhookEnv) (db : DB) (payload : WebhookPayload) :
    WebhookOutcome :=
  if payload.event = some "charge.success" then
    match payload.data with
    | none => ⟨.error (), db, .zero⟩
    | some d =>
      match d.reference with
      | none => ⟨.ok false, db, .zero⟩
      | some reference =>
        match findPayment db.payments reference with
        | none => ⟨.ok false, db, .zero⟩
        | some payment =>
          if payment.status = "successful" then ⟨.ok true, db, .zero⟩
          else
            let fx : WebhookEffects := { WebhookEffects.zero with verifyCalls := 1 }
            match env.verify_transaction reference with
            | none => ⟨.error (), db, fx⟩
            | some (verified_status, verified_amount_kobo) =>
              if verified_status ≠ "success" then
                ⟨.ok false,
                 { db with payments := updatePaymentStatus db.payments reference "failed" },
                 fx⟩
              else if verified_amount_kobo ≠ payment.amountNgn then
                ⟨.ok false,
                 { db with payments := updatePaymentStatus db.payments reference "disputed" },
                 fx⟩
              else
                provision_after_success env
                  { db with payments := updatePaymentStatus db.payments reference "successful" }
                  { payment with status := "successful" } fx
  else ⟨.ok false, db, .zero⟩

/-- Embedding of the HTTP status chosen by `paystack_webhook_handler`
(src/run.py lines 40-56) for a request whose signature already verified and
whose body parsed: 200 when the worker returns True, 400 when it returns
False, 500 when it raises. -/
def paystack_webhook_handler_status (env : WebhookEnv) (db : DB)
    (payload : WebhookPayload) : Nat :=
  match (process_webhook_event env db payload).result with
  | .ok true => 200
  | .ok false => 400
  | .error _ => 500

/-! ### SMS polling worker (src/workers/sms_worker.py) -/

/-- Python's word characters for the `\b` boundary of `_extract_code`. -/
def isWordChar (c : Char) : Bool := c.isAlphanum || c == '_'

/-- Length of the maximal digit run at the head of the character list. -/
def digitRunLength : List Char → Nat
  | [] => 0
  | c :: cs => if c.isDigit then digitRunLength cs + 1 else 0

/-- True when a digit run ending here is followed by a word boundary. -/
def boundaryAfter : List Char → Bool
  | [] => true
  | c :: _ => !isWordChar c

/-- Scan for the leftmost match of `\b\d{4,8}\b`: a maximal digit run of
length 4 to 8 delimited on both sides by a non-word character or the text
edge. `prevIsWord` says whether the character before the current position is
a word character. -/
def findCodeRun : Bool → List Char → Option (List Char)
  | _, [] => none
  | prevIsWord, c :: cs =>
    if !prevIsWord && c.isDigit then
      let n := digitRunLength (c :: cs)
      if 4 ≤ n ∧ n ≤ 8 ∧ boundaryAfter ((c :: cs).drop n) = true then
        some ((c :: cs).take n)
      else findCodeRun (isWordChar c) cs
    else findCodeRun (isWordChar c) cs

/-- Embedding of `_extract_code` (src/workers/sms_worker.py lines 19-22):
`re.search` for the first 4-8 digit run at word boundaries, with the "N/A"
sentinel when nothing matches. (`\d` is modelled as the ASCII digits.) -/
def extract_code (text : String) : String :=
  match findCodeRun false text.data with
  | some run => String.mk run
  | none => "N/A"

/-- The dictionary returned by `pva_service.get_sms`: a status string and the
message text under the `code` key (defaulted to the empty string by
`sms_data.get('code', '')`). -/
structure SmsResponse where
  status : String
  code : String
deriving Repr, DecidableEq

/-- State touched while the polling loop body handles one active Number
(src/workers/sms_worker.py lines 44-100): the row itself, the per-Number
Redis `sms_last:<id>` marker, the persisted `Sms` rows, and a counter of
user notifications sent for this number. -/
structure SmsPollState where
  number : Number
  lastSeenSmsId : Option String
  smsRows : List Sms
  notificationsSent : Nat
deriving Repr, DecidableEq

/-- The dedup identifier of line 75: `f"{number.pva_activation_id}_{hash(sms_text)}"`.
Python's `hash` is modelled by an arbitrary function `hashFn`. -/
def pvaSmsId (hashFn : String → Int) (activationId text : String) : String :=
  activationId ++ "_" ++ toString (hashFn text)

/-- Embedding of one iteration of the per-Number body of `sms_polling_worker`
(lines 44-100) for one provider response: skip the number when its country
name cannot be resolved; ignore a missing response or a `WAITING` status;
deactivate on any other non-`OK` status; on `OK`, persist a new `Sms` row,
notify the user, and advance the last-seen marker only when the computed
message identifier differs from the marker. -/
def sms_poll_step (hashFn : String → Int) (countries : List Country)
    (sms_data : Option SmsResponse) (st : SmsPollState) : SmsPollState :=
  match countryName countries st.number.countryCode with
  | none => st
  | some _ =>
    match sms_data with
    | none => st
    | some d =>
      if d.status ≠ "OK" then
        if d.status ≠ "WAITING" then
          { st with number := { st.number with status := "expired" } }
        else st
      else
        let sms_text := d.code
        let msgId := pvaSmsId hashFn st.number.pvaActivationId sms_text
        if st.lastSeenSmsId = some msgId then st
        else
          { st with
            smsRows := st.smsRows ++
              [{ numberId := st.number.id, pvaSmsId := msgId,
                 fullText := sms_text, verificationCode := extract_code sms_text }],
            notificationsSent := st.notificationsSent + 1,
            lastSeenSmsId := some msgId }

/-! ### Rental expiry worker (src/workers/rental_worker.py lines 64-76) -/

/-- The per-row effect of the expiry pass: rows selected by
`is_rent == True, status == "active", expires_at <= now_utc` are flipped to
`expired`; every other row is untouched. -/
def rental_expiry_flip (now_utc : Int) (n : Number) : Number :=
  if n.isRent = true ∧ n.status = "active" ∧ n.expiresAt ≤ now_utc then
    { n with status := "expired" }
  else n

/-- The expiry pass of one `rental_status_worker` sweep over the Number
table. -/
def rental_expiry_pass (now_utc : Int) (numbers : List Number) : List Number :=
  numbers.map (rental_expiry_flip now_utc)

/-! ### Concrete fixtures used by the witness theorems -/

/-- A pending Payment for a new temporary WhatsApp number in Nigeria. -/
def pPending : Payment :=
  { id := 1, userId := 1, userTelegramId := 500, amountNgn := 160000,
    status := "pending", paystackRef := "pva-1-ref1",
    lockedPriceRef := "pricing:Nigeria:WhatsApp:temp" }

/-- An already-`successful` Payment. -/
def pDone : Payment :=
  { id := 3, userId := 1, userTelegramId := 500, amountNgn := 160000,
    status := "successful", paystackRef := "pva-1-ref3",
    lockedPriceRef := "pricing:Nigeria:WhatsApp:temp" }

/-- An active rental Number with id 7. -/
def nRental : Number :=
  { id := 7, phoneNumber := "+60123456789", pvaActivationId := "+60123456789",
    serviceCode := "WhatsApp", countryCode := "Malaysia", status := "active",
    isRent := true, expiresAt := 1700000000, renewalNoticeSent := true,
    userId := 1, paymentId := 1 }

/-- A pending renewal Payment for `nRental`. -/
def pRenewal : Payment :=
  { id := 2, userId := 1, userTelegramId := 500, amountNgn := 80000,
    status := "pending", paystackRef := "pva-1-ref2", lockedPriceRef := "renewal:7" }

/-- Store holding only `pPending`. -/
def dbPurchase : DB := { payments := [pPending], numbers := [], nextNumberId := 1 }

/-- Store holding only `pDone`. -/
def dbDone : DB := { payments := [pDone], numbers := [], nextNumberId := 1 }

/-- Store holding `pRenewal` and `nRental`. -/
def dbRenewal : DB := { payments := [pRenewal], numbers := [nRental], nextNumberId := 8 }

/-- Valid `charge.success` payload for `pPending`. -/
def payloadPurchase : WebhookPayload :=
  { event := some "charge.success",
    data := some { reference := some "pva-1-ref1", amount := some 160000 } }

/-- Valid `charge.success` payload for `pDone`. -/
def payloadDone : WebhookPayload :=
  { event := some "charge.success",
    data := some { reference := some "pva-1-ref3", amount := some 160000 } }

/-- Valid `charge.success` payload for `pRenewal`. -/
def payloadRenewal : WebhookPayload :=
  { event := some "charge.success",
    data := some { reference := some "pva-1-ref2", amount := some 80000 } }

/-- A payload of a different event class. -/
def payloadWrongEvent : WebhookPayload :=
  { event := some "charge.failed",
    data := some { reference := some "pva-1-ref1", amount := some 160000 } }

/-- Environment where everything succeeds: verification confirms 160000
kobo, Nigeria resolves, purchases return a number, renewals succeed. -/
def envPurchase : WebhookEnv :=
  { verify_transaction := fun _ => some ("success", 160000),
    get_countries := fun _ => [{ id := "Nigeria", name := "Nigeria" }],
    renew_rental_number := fun _ _ _ _ => true,
    buy_number := fun _ _ _ _ =>
      some { phone_number := "+2348012345678", activation_id := "+2348012345678" },
    now := 1700000000 }

/-- Environment whose gateway verification endpoint fails at the transport
level (`verify_transaction` returns no result). -/
def envVerifyNone : WebhookEnv :=
  { envPurchase with verify_transaction := fun _ => none }

/-- Environment whose gateway verification reports a non-success status. -/
def envVerifyFailed : WebhookEnv :=
  { envPurchase with verify_transaction := fun _ => some ("failed", 160000) }

/-- Environment whose verification reports success but a paid amount
different from the 160000 kobo recorded on `pPending`. -/
def envAmountMismatch : WebhookEnv :=
  { envPurchase with verify_transaction := fun _ => some ("success", 150000) }

/-- Environment where the provider purchase returns no number. -/
def envBuyNone : WebhookEnv :=
  { envPurchase with buy_number := fun _ _ _ _ => none }

/-- Environment for the renewal scenario: verification confirms 80000 kobo,
Malaysia resolves, renewal succeeds. -/
def envRenewal : WebhookEnv :=
  { verify_transaction := fun _ => some ("success", 80000),
    get_countries := fun _ => [{ id := "Malaysia", name := "Malaysia" }],
    renew_rental_number := fun _ _ _ _ => true,
    buy_number := fun _ _ _ _ => none,
    now := 1700000000 }

/-- Deterministic stand-in for Python's `hash` in SMS witnesses. -/
def testHash (s : String) : Int := s.length

/-- Country list for SMS witnesses. -/
def testCountriesSms : List Country := [{ id := "Malaysia", name := "Malaysia" }]

/-- An `OK` provider response carrying a message. -/
def testSmsResponse : SmsResponse := { status := "OK", code := "Your code is 1234" }

/-- Poll state for `nRental` with nothing seen yet. -/
def testSmsState : SmsPollState :=
  { number := nRental, lastSeenSmsId := none, smsRows := [], notificationsSent := 0 }

/-! ### Theorems about the price calculator and pricing engine -/

/-- C3: for positive cost and FX rate and non-negative configured markup, the
price calculation returns exactly `⌈cost * (1 + markup/100) * fx / 10⌉ * 10`,
a positive multiple of 10, monotone non-decreasing in cost and in FX rate,
and the Scenario A instance (cost 0.50, markup 100, fx 1600) yields 1600. -/
theorem C3_price_rounding (s : Settings) (cost fx cost2 fx2 : ℚ)
    (hc : 0 < cost) (hf : 0 < fx) (hm : 0 ≤ s.PRICE_MARKUP_PERCENTAGE) :
    calculate_final_ngn s cost fx
        = ⌈cost * (1 + s.PRICE_MARKUP_PERCENTAGE / 100) * fx / 10⌉ * 10 ∧
    0 < calculate_final_ngn s cost fx ∧
    (10 : ℤ) ∣ calculate_final_ngn s cost fx ∧
    (cost ≤ cost2 → calculate_final_ngn s cost fx ≤ calculate_final_ngn s cost2 fx) ∧
    (fx ≤ fx2 → calculate_final_ngn s cost fx ≤ calculate_final_ngn s cost fx2) ∧
    calculate_final_ngn defaultSettings (1 / 2) 1600 = 1600 := by
  have hmul : (0 : ℚ) < 1 + s.PRICE_MARKUP_PERCENTAGE / 100 := by positivity
  refine ⟨rfl, ?_, ?_, ?_, ?_, ?_⟩
  · have hx : (0 : ℚ) < cost * (1 + s.PRICE_MARKUP_PERCENTAGE / 100) * fx / 10 := by positivity
    have := Int.ceil_pos.mpr hx
    unfold calculate_final_ngn
    positivity
  · exact Dvd.intro _ (mul_comm _ _)
  · intro h
    unfold calculate_final_ngn
    have : cost * (1 + s.PRICE_MARKUP_PERCENTAGE / 100) * fx / 10
        ≤ cost2 * (1 + s.PRICE_MARKUP_PERCENTAGE / 100) * fx / 10 := by
      gcongr
    exact mul_le_mul_of_nonneg_right (Int.ceil_le_ceil this) (by norm_num)
  · intro h
    unfold calculate_final_ngn
    have : cost * (1 + s.PRICE_MARKUP_PERCENTAGE / 100) * fx / 10
        ≤ cost * (1 + s.PRICE_MARKUP_PERCENTAGE / 100) * fx2 / 10 := by
      have hnn : (0 : ℚ) ≤ cost * (1 + s.PRICE_MARKUP_PERCENTAGE / 100) := by positivity
      gcongr
    exact mul_le_mul_of_nonneg_right (Int.ceil_le_ceil this) (by norm_num)
  · unfold calculate_final_ngn defaultSettings
    norm_num

/-- C3 witness: the theorem applied at cost 1/2, fx 1600, markup 100. -/
theorem C3_price_rounding_witness :
    calculate_final_ngn defaultSettings (1 / 2) 1600
        = ⌈(1 / 2 : ℚ) * (1 + (defaultSettings.PRICE_MARKUP_PERCENTAGE) / 100) * 1600 / 10⌉ * 10 ∧
    0 < calculate_final_ngn defaultSettings (1 / 2) 1600 := by
  have h := C3_price_rounding defaultSettings (1 / 2) 1600 1 1600
    (by norm_num) (by norm_num) (by norm_num [defaultSettings])
  exact ⟨h.1, h.2.1⟩

/-- C4: whenever the live FX rate exceeds the configured cap, the pricing
engine behaves exactly as if the live rate were the cap: the capped rate, and
never the live value, enters the price computation. -/
theorem C4_fx_cap (env : PricingEnv) (st : PricingState)
    (country_id service_id number_type : String)
    (hlive : env.settings.FX_RATE_CAP < env.liveFxRate) :
    min env.liveFxRate env.settings.FX_RATE_CAP = env.settings.FX_RATE_CAP ∧
    get_final_ngn_price env st country_id service_id number_type
      = get_final_ngn_price { env with liveFxRate := env.settings.FX_RATE_CAP }
          st country_id service_id number_type := by
  constructor
  · exact min_eq_right hlive.le
  · unfold get_final_ngn_price
    rw [min_eq_right hlive.le]
    simp [min_self]

/-- C4 witness: a live rate of 1700 against the default cap of 1600. -/
theorem C4_fx_cap_witness :
    min (1700 : ℚ) defaultSettings.FX_RATE_CAP = defaultSettings.FX_RATE_CAP := by
  have h := C4_fx_cap
    { getPrices := fun _ _ => some (1 / 2), liveFxRate := 1700, settings := defaultSettings }
    { cache := [], upstreamFetches := 0 } "Nigeria" "WhatsApp" "temp"
    (by norm_num [defaultSettings])
  exact h.1

/-- C5: if a quote call returned a price and a key, the identical call made
again on the resulting state (within the cache TTL) returns exactly the same
price paired with the same key and leaves the state untouched — in
particular it performs no second upstream fetch. -/
theorem C5_quote_idempotent (env : PricingEnv) (st st2 : PricingState)
    (country_id service_id number_type : String) (p : Int) (k : String)
    (h : get_final_ngn_price env st country_id service_id number_type = ((some p, some k), st2)) :
    get_final_ngn_price env st2 country_id service_id number_type = ((some p, some k), st2) ∧
    (get_final_ngn_price env st2 country_id service_id number_type).2.upstreamFetches
      = st2.upstreamFetches := by
  simp only [get_final_ngn_price] at h ⊢
  rcases hc : cacheLookup st.cache
      ("pricing:" ++ country_id ++ ":" ++ service_id ++ ":" ++ number_type) with _ | cached
  · rw [hc] at h
    rcases hp : env.getPrices country_id service_id with _ | cost
    · rw [hp] at h; simp at h
    · rw [hp] at h
      simp only at h
      split at h
      · simp at h
      · simp only [Prod.mk.injEq, Option.some.injEq] at h
        obtain ⟨⟨hp1, hk1⟩, hst⟩ := h
        subst hst
        have hhit : cacheLookup
            ((("pricing:" ++ country_id ++ ":" ++ service_id ++ ":" ++ number_type),
              calculate_final_ngn env.settings cost
                (min env.liveFxRate env.settings.FX_RATE_CAP)) ::
              st.cache)
            ("pricing:" ++ country_id ++ ":" ++ service_id ++ ":" ++ number_type)
            = some (calculate_final_ngn env.settings cost
                (min env.liveFxRate env.settings.FX_RATE_CAP)) := by
          simp [cacheLookup, List.find?]
        rw [hhit, hp1, hk1]
        exact ⟨rfl, rfl⟩
  · rw [hc] at h
    simp only [Prod.mk.injEq, Option.some.injEq] at h
    obtain ⟨⟨hp1, hk1⟩, hst⟩ := h
    subst hst
    rw [hc, hp1, hk1]
    exact ⟨rfl, rfl⟩

/-- C5 witness: a concrete first call (cost 0.50, live rate 1500, cap 1600)
that fills the cache with the price 1500, then the theorem applied to it. -/
theorem C5_quote_idempotent_witness :
    get_final_ngn_price
      { getPrices := fun _ _ => some (1 / 2), liveFxRate := 1500, settings := defaultSettings }
      { cache := [("pricing:Nigeria:WhatsApp:temp", 1500)], upstreamFetches := 1 }
      "Nigeria" "WhatsApp" "temp"
      = ((some 1500, some "pricing:Nigeria:WhatsApp:temp"),
         { cache := [("pricing:Nigeria:WhatsApp:temp", 1500)], upstreamFetches := 1 }) :=
  (C5_quote_idempotent
    { getPrices := fun _ _ => some (1 / 2), liveFxRate := 1500, settings := defaultSettings }
    { cache := [], upstreamFetches := 0 }
    { cache := [("pricing:Nigeria:WhatsApp:temp", 1500)], upstreamFetches := 1 }
    "Nigeria" "WhatsApp" "temp" 1500 "pricing:Nigeria:WhatsApp:temp"
    (by
      norm_num [get_final_ngn_price, cacheLookup, List.find?, defaultSettings,
        calculate_final_ngn]
      simp)).1

/-! ### Helper lemmas for the webhook reconciler -/

/-- Updating the status of the rows holding a reference commutes with the
reference lookup. -/
lemma findPayment_updatePaymentStatus (ps : List Payment) (r s : String) :
    findPayment (updatePaymentStatus ps r s) r
      = (findPayment ps r).map (fun q => { q with status := s }) := by
  unfold findPayment updatePaymentStatus
  induction ps with
  | nil => rfl
  | cons q qs ih =>
    by_cases hq : q.paystackRef = r
    · simp [List.find?, hq]
    · simp only [List.map_cons, List.find?]
      have hb : (q.paystackRef == r) = false := by simp [hq]
      simp only [hb, if_neg (by simp [hq] : ¬(q.paystackRef == r) = true)]
      simpa [hb] using ih

/-- The renewal row-update commutes with the primary-key lookup that found
the row. -/
lemma findNumber_renew (ns : List Number) (nid : Int) (n : Number)
    (hfind : findNumber ns nid = some n) :
    findNumber (ns.map (renew_number_update n)) nid
      = some { n with expiresAt := n.expiresAt + 259200, renewalNoticeSent := false } := by
  have hid : n.id = nid := by
    have h := List.find?_some hfind
    simpa using h
  subst hid
  unfold findNumber at hfind ⊢
  induction ns with
  | nil => simp at hfind
  | cons m ms ih =>
    by_cases hm : m.id = n.id
    · have hb : (m.id == n.id) = true := by simp [hm]
      have hmn : m = n := by
        simpa [List.find?, hb] using hfind
      subst hmn
      simp [List.find?, renew_number_update]
    · have hb : (m.id == n.id) = false := by simp [hm]
      have hupd : renew_number_update n m = m := by simp [renew_number_update, hb]
      have hfind2 : List.find? (fun x => x.id == n.id) ms = some n := by
        simpa [List.find?, hb] using hfind
      simpa [List.find?, hupd, hb] using ih hfind2

/-- Step 4 of the reconciler: an already-`successful` Payment short-circuits
to success with no verification call, no provisioning and no store change. -/
lemma process_short_circuit (env : WebhookEnv) (db : DB) (payload : WebhookPayload)
    (d : WebhookData) (r : String) (p : Payment)
    (h1 : payload.event = some "charge.success") (h2 : payload.data = some d)
    (h3 : d.reference = some r) (h4 : findPayment db.payments r = some p)
    (h5 : p.status = "successful") :
    process_webhook_event env db payload = ⟨.ok true, db, .zero⟩ := by
  simp [process_webhook_event, h1, h2, h3, h4, h5]

/-- Steps 5-7 of the reconciler: a pending Payment whose verification
succeeds with the recorded amount is committed `successful` and control
passes to the provisioning block. -/
lemma process_verified_success (env : WebhookEnv) (db : DB) (payload : WebhookPayload)
    (d : WebhookData) (r : String) (p : Payment)
    (h1 : payload.event = some "charge.success") (h2 : payload.data = some d)
    (h3 : d.reference = some r) (h4 : findPayment db.payments r = some p)
    (h5 : p.status ≠ "successful")
    (hv : env.verify_transaction r = some ("success", p.amountNgn)) :
    process_webhook_event env db payload
      = provision_after_success env
          { db with payments := updatePaymentStatus db.payments r "successful" }
          { p with status := "successful" }
          { WebhookEffects.zero with verifyCalls := 1 } := by
  simp [process_webhook_event, h1, h2, h3, h4, h5, hv]

/-- Purchase branch, provider returns a number: one Number row is inserted. -/
lemma provision_purchase_some (env : WebhookEnv) (db : DB) (payment : Payment)
    (fx : WebhookEffects) (cid sid ntype cname : String) (info : PurchasedNumberInfo)
    (hnr : py_startswith payment.lockedPriceRef "renewal:" = false)
    (hp1 : (py_split payment.lockedPriceRef ':')[1]? = some cid)
    (hp2 : (py_split payment.lockedPriceRef ':')[2]? = some sid)
    (hp3 : (py_split payment.lockedPriceRef ':')[3]? = some ntype)
    (hcn : countryName (env.get_countries (ntype == "rent")) cid = some cname)
    (hbuy : env.buy_number sid cid cname (ntype == "rent") = some info) :
    provision_after_success env db payment fx
      = ⟨.ok true,
         { db with
           numbers := db.numbers ++
             [purchased_number env db payment cid sid (ntype == "rent") info],
           nextNumberId := db.nextNumberId + 1 },
         { fx with buyCalls := fx.buyCalls + 1, messagesSent := fx.messagesSent + 1 }⟩ := by
  simp [provision_after_success, hnr, hp1, hp2, hp3, hcn, hbuy]

/-- Purchase branch, provider returns nothing: the handler still returns
True, sends a support message, and inserts no Number row. -/
lemma provision_purchase_none (env : WebhookEnv) (db : DB) (payment : Payment)
    (fx : WebhookEffects) (cid sid ntype cname : String)
    (hnr : py_startswith payment.lockedPriceRef "renewal:" = false)
    (hp1 : (py_split payment.lockedPriceRef ':')[1]? = some cid)
    (hp2 : (py_split payment.lockedPriceRef ':')[2]? = some sid)
    (hp3 : (py_split payment.lockedPriceRef ':')[3]? = some ntype)
    (hcn : countryName (env.get_countries (ntype == "rent")) cid = some cname)
    (hbuy : env.buy_number sid cid cname (ntype == "rent") = none) :
    provision_after_success env db payment fx
      = ⟨.ok true, db,
         { fx with buyCalls := fx.buyCalls + 1, messagesSent := fx.messagesSent + 1 }⟩ := by
  simp [provision_after_success, hnr, hp1, hp2, hp3, hcn, hbuy]

/-- Renewal branch, provider renewal succeeds: the target row's expiry is
extended and its notice flag cleared. -/
lemma provision_renewal_success (env : WebhookEnv) (db : DB) (payment : Payment)
    (fx : WebhookEffects) (nid : Int) (n : Number)
    (hr : py_startswith payment.lockedPriceRef "renewal:" = true)
    (hparse : ((py_split payment.lockedPriceRef ':')[1]?).bind py_int? = some nid)
    (hfind : findNumber db.numbers nid = some n)
    (hrenew : env.renew_rental_number n.serviceCode n.countryCode
        (countryName (env.get_countries true) n.countryCode) n.phoneNumber = true) :
    provision_after_success env db payment fx
      = ⟨.ok true, { db with numbers := db.numbers.map (renew_number_update n) },
         { fx with renewCalls := fx.renewCalls + 1, messagesSent := fx.messagesSent + 1 }⟩ := by
  simp [provision_after_success, hr, hparse, hfind, hrenew]

/-! ### Theorems about the webhook reconciler -/

/-- C1: delivering a valid `charge.success` event for a Payment that is
already `successful` returns success immediately with no verification call,
no provisioning and an unchanged store; and a first delivery that verifies,
matches the amount and purchases a number inserts exactly one Number row,
after which redelivering the same event is such a no-op — so duplicate
deliveries provision exactly one Number. -/
theorem C1_webhook_idempotence :
    (∀ (env : WebhookEnv) (db : DB) (payload : WebhookPayload) (d : WebhookData)
       (r : String) (p : Payment),
       payload.event = some "charge.success" → payload.data = some d →
       d.reference = some r → findPayment db.payments r = some p →
       p.status = "successful" →
       process_webhook_event env db payload = ⟨.ok true, db, .zero⟩) ∧
    (∀ (env : WebhookEnv) (db : DB) (payload : WebhookPayload) (d : WebhookData)
       (r : String) (p : Payment) (cid sid ntype cname : String)
       (info : PurchasedNumberInfo),
       payload.event = some "charge.success" → payload.data = some d →
       d.reference = some r → findPayment db.payments r = some p →
       p.status ≠ "successful" →
       env.verify_transaction r = some ("success", p.amountNgn) →
       py_startswith p.lockedPriceRef "renewal:" = false →
       (py_split p.lockedPriceRef ':')[1]? = some cid →
       (py_split p.lockedPriceRef ':')[2]? = some sid →
       (py_split p.lockedPriceRef ':')[3]? = some ntype →
       countryName (env.get_countries (ntype == "rent")) cid = some cname →
       env.buy_number sid cid cname (ntype == "rent") = some info →
       (process_webhook_event env db payload).db.numbers.length = db.numbers.length + 1 ∧
       process_webhook_event env (process_webhook_event env db payload).db payload
         = ⟨.ok true, (process_webhook_event env db payload).db, .zero⟩) := by
  constructor
  · intro env db payload d r p h1 h2 h3 h4 h5
    exact process_short_circuit env db payload d r p h1 h2 h3 h4 h5
  · intro env db payload d r p cid sid ntype cname info h1 h2 h3 h4 h5 hv hnr hp1 hp2 hp3 hcn hbuy
    have hrun := process_verified_success env db payload d r p h1 h2 h3 h4 h5 hv
    rw [provision_purchase_some env
        { db with payments := updatePaymentStatus db.payments r "successful" }
        { p with status := "successful" }
        { WebhookEffects.zero with verifyCalls := 1 }
        cid sid ntype cname info hnr hp1 hp2 hp3 hcn hbuy] at hrun
    constructor
    · rw [hrun]
      simp
    · have hpay : (process_webhook_event env db payload).db.payments
          = updatePaymentStatus db.payments r "successful" := by
        rw [hrun]
      have h4b : findPayment (process_webhook_event env db payload).db.payments r
          = some { p with status := "successful" } := by
        rw [hpay, findPayment_updatePaymentStatus, h4]
        rfl
      exact process_short_circuit env _ payload d r { p with status := "successful" }
        h1 h2 h3 h4b rfl

/-- C1 witness: the short-circuit applied to an already-successful Payment,
and a first delivery plus redelivery for a pending Payment whose purchase
succeeds: exactly one Number row exists afterwards. -/
theorem C1_webhook_idempotence_witness :
    process_webhook_event envPurchase dbDone payloadDone = ⟨.ok true, dbDone, .zero⟩ ∧
    (process_webhook_event envPurchase dbPurchase payloadPurchase).db.numbers.length = 1 ∧
    process_webhook_event envPurchase
        (process_webhook_event envPurchase dbPurchase payloadPurchase).db payloadPurchase
      = ⟨.ok true, (process_webhook_event envPurchase dbPurchase payloadPurchase).db,
         .zero⟩ := by
  have ha := C1_webhook_idempotence.1 envPurchase dbDone payloadDone
    { reference := some "pva-1-ref3", amount := some 160000 } "pva-1-ref3" pDone
    rfl rfl rfl (by decide) rfl
  have hb := C1_webhook_idempotence.2 envPurchase dbPurchase payloadPurchase
    { reference := some "pva-1-ref1", amount := some 160000 } "pva-1-ref1" pPending
    "Nigeria" "WhatsApp" "temp" "Nigeria"
    { phone_number := "+2348012345678", activation_id := "+2348012345678" }
    rfl rfl rfl (by decide) (by decide) rfl (by decide) (by decide) (by decide) (by decide)
    (by decide) rfl
  refine ⟨ha, ?_, hb.2⟩
  rw [hb.1]
  rfl

/-- C2: when the Payment exists and is not yet successful and the gateway
verification reports success with a paid amount different from the recorded
one, the handler marks the Payment `disputed` (never `successful`), stops
with a failure result, and provisions nothing — for every webhook body,
whatever amount the body claims. -/
theorem C2_amount_mismatch_disputed (env : WebhookEnv) (db : DB)
    (payload : WebhookPayload) (d : WebhookData) (r : String) (p : Payment) (amt : Int)
    (h1 : payload.event = some "charge.success") (h2 : payload.data = some d)
    (h3 : d.reference = some r) (h4 : findPayment db.payments r = some p)
    (h5 : p.status ≠ "successful")
    (hv : env.verify_transaction r = some ("success", amt))
    (hne : amt ≠ p.amountNgn) :
    process_webhook_event env db payload
      = ⟨.ok false, { db with payments := updatePaymentStatus db.payments r "disputed" },
         { WebhookEffects.zero with verifyCalls := 1 }⟩ ∧
    findPayment (process_webhook_event env db payload).db.payments r
      = some { p with status := "disputed" } ∧
    (process_webhook_event env db payload).db.numbers = db.numbers := by
  have hmain : process_webhook_event env db payload
      = ⟨.ok false, { db with payments := updatePaymentStatus db.payments r "disputed" },
         { WebhookEffects.zero with verifyCalls := 1 }⟩ := by
    simp [process_webhook_event, h1, h2, h3, h4, h5, hv, hne]
  refine ⟨hmain, ?_, ?_⟩
  · rw [hmain]
    show findPayment (updatePaymentStatus db.payments r "disputed") r = _
    rw [findPayment_updatePaymentStatus, h4]
    rfl
  · rw [hmain]

/-- C2 witness: `pPending` records 160000 kobo, verification reports 150000;
the Payment ends `disputed` and no Number appears. -/
theorem C2_amount_mismatch_disputed_witness :
    process_webhook_event envAmountMismatch dbPurchase payloadPurchase
      = ⟨.ok false,
         { dbPurchase with
           payments := updatePaymentStatus dbPurchase.payments "pva-1-ref1" "disputed" },
         { WebhookEffects.zero with verifyCalls := 1 }⟩ ∧
    findPayment (process_webhook_event envAmountMismatch dbPurchase payloadPurchase).db.payments
        "pva-1-ref1" = some { pPending with status := "disputed" } := by
  have h := C2_amount_mismatch_disputed envAmountMismatch dbPurchase payloadPurchase
    { reference := some "pva-1-ref1", amount := some 160000 } "pva-1-ref1" pPending 150000
    rfl rfl rfl (by decide) (by decide) rfl (by decide)
  exact ⟨h.1, h.2.1⟩

/-- C6 counterexample: with the verification client returning no result at
all (transport failure), the handler raises instead of marking the Payment
`failed`: the store is unchanged and the Payment is still `pending`. -/
theorem C6_counterexample :
    (process_webhook_event envVerifyNone dbPurchase payloadPurchase).result = .error () ∧
    (process_webhook_event envVerifyNone dbPurchase payloadPurchase).db = dbPurchase ∧
    findPayment (process_webhook_event envVerifyNone dbPurchase payloadPurchase).db.payments
        "pva-1-ref1" = some pPending ∧
    pPending.status = "pending" := by
  exact ⟨rfl, rfl, rfl, rfl⟩

/-- C6 (amended): for a Payment that exists and is not yet successful, a
verification result with any non-`success` status marks the Payment `failed`
and stops; but when the verification client returns no result at all the
handler instead raises an uncaught exception (surfaced as a server error by
the HTTP layer) and leaves the Payment unchanged. -/
theorem C6_verification_failure (env : WebhookEnv) (db : DB)
    (payload : WebhookPayload) (d : WebhookData) (r : String) (p : Payment)
    (h1 : payload.event = some "charge.success") (h2 : payload.data = some d)
    (h3 : d.reference = some r) (h4 : findPayment db.payments r = some p)
    (h5 : p.status ≠ "successful") :
    (∀ (st : String) (amt : Int),
       env.verify_transaction r = some (st, amt) → st ≠ "success" →
       process_webhook_event env db payload
         = ⟨.ok false, { db with payments := updatePaymentStatus db.payments r "failed" },
            { WebhookEffects.zero with verifyCalls := 1 }⟩) ∧
    (env.verify_transaction r = none →
       process_webhook_event env db payload
         = ⟨.error (), db, { WebhookEffects.zero with verifyCalls := 1 }⟩) := by
  constructor
  · intro st amt hv hst
    simp [process_webhook_event, h1, h2, h3, h4, h5, hv, hst]
  · intro hv
    simp [process_webhook_event, h1, h2, h3, h4, h5, hv]

/-- C6 witness: a `failed` verification status marks the Payment `failed`;
a missing verification result raises with the store unchanged. -/
theorem C6_verification_failure_witness :
    process_webhook_event envVerifyFailed dbPurchase payloadPurchase
      = ⟨.ok false,
         { dbPurchase with
           payments := updatePaymentStatus dbPurchase.payments "pva-1-ref1" "failed" },
         { WebhookEffects.zero with verifyCalls := 1 }⟩ ∧
    process_webhook_event envVerifyNone dbPurchase payloadPurchase
      = ⟨.error (), dbPurchase, { WebhookEffects.zero with verifyCalls := 1 }⟩ := by
  have ha := (C6_verification_failure envVerifyFailed dbPurchase payloadPurchase
    { reference := some "pva-1-ref1", amount := some 160000 } "pva-1-ref1" pPending
    rfl rfl rfl (by decide) (by decide)).1 "failed" 160000 rfl (by decide)
  have hb := (C6_verification_failure envVerifyNone dbPurchase payloadPurchase
    { reference := some "pva-1-ref1", amount := some 160000 } "pva-1-ref1" pPending
    rfl rfl rfl (by decide) (by decide)).2 rfl
  exact ⟨ha, hb⟩

/-- C9 counterexample: a `charge.failed` event changes no state, but the
worker returns False and the HTTP handler answers 400 — a client-error
response is produced, contradicting the claim. -/
theorem C9_counterexample :
    process_webhook_event envPurchase dbPurchase payloadWrongEvent
      = ⟨.ok false, dbPurchase, .zero⟩ ∧
    paystack_webhook_handler_status envPurchase dbPurchase payloadWrongEvent = 400 := by
  exact ⟨rfl, rfl⟩

/-- C9 (amended): only `charge.success` events are processed; any other
event type changes no state and triggers no verification or provisioning,
but `process_webhook_event` returns False and the webhook endpoint replies
HTTP 400 (a client error) rather than acknowledging the event as success. -/
theorem C9_event_filter (env : WebhookEnv) (db : DB) (payload : WebhookPayload)
    (h : payload.event ≠ some "charge.success") :
    process_webhook_event env db payload = ⟨.ok false, db, .zero⟩ ∧
    paystack_webhook_handler_status env db payload = 400 := by
  have h0 : process_webhook_event env db payload = ⟨.ok false, db, .zero⟩ := by
    simp [process_webhook_event, h]
  refine ⟨h0, ?_⟩
  simp [paystack_webhook_handler_status, h0]

/-- C9 witness: the amended claim applied to the `charge.failed` payload. -/
theorem C9_event_filter_witness :
    process_webhook_event envRenewal dbRenewal payloadWrongEvent
      = ⟨.ok false, dbRenewal, .zero⟩ ∧
    paystack_webhook_handler_status envRenewal dbRenewal payloadWrongEvent = 400 :=
  C9_event_filter envRenewal dbRenewal payloadWrongEvent (by decide)

/-- C10: when the provider purchase returns no number after the Payment was
committed `successful`, the handler still returns success, inserts no Number
row, and leaves the Payment `successful`; any later delivery of the same
event short-circuits on the `successful` status, returns success and never
retries provisioning — a `successful` Payment can permanently lack a
Number. -/
theorem C10_provisioning_failure_permanent :
    (∀ (env : WebhookEnv) (db : DB) (payload : WebhookPayload) (d : WebhookData)
       (r : String) (p : Payment) (cid sid ntype cname : String),
       payload.event = some "charge.success" → payload.data = some d →
       d.reference = some r → findPayment db.payments r = some p →
       p.status ≠ "successful" →
       env.verify_transaction r = some ("success", p.amountNgn) →
       py_startswith p.lockedPriceRef "renewal:" = false →
       (py_split p.lockedPriceRef ':')[1]? = some cid →
       (py_split p.lockedPriceRef ':')[2]? = some sid →
       (py_split p.lockedPriceRef ':')[3]? = some ntype →
       countryName (env.get_countries (ntype == "rent")) cid = some cname →
       env.buy_number sid cid cname (ntype == "rent") = none →
       process_webhook_event env db payload
         = ⟨.ok true,
            { db with payments := updatePaymentStatus db.payments r "successful" },
            { verifyCalls := 1, renewCalls := 0, buyCalls := 1, messagesSent := 1 }⟩ ∧
       findPayment (process_webhook_event env db payload).db.payments r
         = some { p with status := "successful" } ∧
       (process_webhook_event env db payload).db.numbers = db.numbers) ∧
    (∀ (env : WebhookEnv) (db : DB) (payload : WebhookPayload) (d : WebhookData)
       (r : String) (p : Payment),
       payload.event = some "charge.success" → payload.data = some d →
       d.reference = some r → findPayment db.payments r = some p →
       p.status = "successful" →
       process_webhook_event env db payload = ⟨.ok true, db, .zero⟩) := by
  constructor
  · intro env db payload d r p cid sid ntype cname h1 h2 h3 h4 h5 hv hnr hp1 hp2 hp3 hcn hbuy
    have hmain : process_webhook_event env db payload
        = ⟨.ok true,
           { db with payments := updatePaymentStatus db.payments r "successful" },
           { verifyCalls := 1, renewCalls := 0, buyCalls := 1, messagesSent := 1 }⟩ := by
      rw [process_verified_success env db payload d r p h1 h2 h3 h4 h5 hv]
      exact provision_purchase_none _ _ _ _ cid sid ntype cname hnr hp1 hp2 hp3 hcn hbuy
    refine ⟨hmain, ?_, ?_⟩
    · rw [hmain]
      show findPayment (updatePaymentStatus db.payments r "successful") r = _
      rw [findPayment_updatePaymentStatus, h4]
      rfl
    · rw [hmain]
  · intro env db payload d r p h1 h2 h3 h4 h5
    exact process_short_circuit env db payload d r p h1 h2 h3 h4 h5

/-- C10 witness: a failed purchase leaves `pPending` successful with no
Number; redelivery against the already-successful `pDone` is a no-op
success. -/
theorem C10_provisioning_failure_permanent_witness :
    process_webhook_event envBuyNone dbPurchase payloadPurchase
      = ⟨.ok true,
         { dbPurchase with
           payments := updatePaymentStatus dbPurchase.payments "pva-1-ref1" "successful" },
         { verifyCalls := 1, renewCalls := 0, buyCalls := 1, messagesSent := 1 }⟩ ∧
    (process_webhook_event envBuyNone dbPurchase payloadPurchase).db.numbers
      = dbPurchase.numbers ∧
    process_webhook_event envBuyNone dbDone payloadDone = ⟨.ok true, dbDone, .zero⟩ := by
  have ha := C10_provisioning_failure_permanent.1 envBuyNone dbPurchase payloadPurchase
    { reference := some "pva-1-ref1", amount := some 160000 } "pva-1-ref1" pPending
    "Nigeria" "WhatsApp" "temp" "Nigeria"
    rfl rfl rfl (by decide) (by decide) rfl (by decide) (by decide) (by decide) (by decide)
    (by decide) rfl
  have hb := C10_provisioning_failure_permanent.2 envBuyNone dbDone payloadDone
    { reference := some "pva-1-ref3", amount := some 160000 } "pva-1-ref3" pDone
    rfl rfl rfl (by decide) rfl
  exact ⟨ha.1, ha.2.2, hb⟩

/-! ### Theorems about the rental lifecycle -/

/-- A Number whose expiry is still in the future is untouched by the expiry
flip. -/
lemma rental_expiry_flip_future (now_utc : Int) (n : Number)
    (h : now_utc < n.expiresAt) : rental_expiry_flip now_utc n = n := by
  unfold rental_expiry_flip
  rw [if_neg]
  rintro ⟨-, -, hle⟩
  omega

/-- An expiry pass over rows that all expire in the future is the
identity. -/
lemma rental_expiry_pass_future (now_utc : Int) (ns : List Number)
    (h : ∀ n ∈ ns, now_utc < n.expiresAt) : rental_expiry_pass now_utc ns = ns := by
  unfold rental_expiry_pass
  induction ns with
  | nil => rfl
  | cons m ms ih =>
    rw [List.map_cons, rental_expiry_flip_future now_utc m (h m (by simp)),
        ih (fun x hx => h x (by simp [hx]))]

/-- C8: a successful renewal sets the Number's `expires_at` to exactly the
old value plus the 3-day renewal period — a strict increase — and resets
`renewal_notice_sent` to false; and the rental expiry pass never flips a
Number whose `expires_at` is still in the future. -/
theorem C8_rental_monotonic_expiry :
    (∀ (env : WebhookEnv) (db : DB) (payload : WebhookPayload) (d : WebhookData)
       (r : String) (p : Payment) (nid : Int) (n : Number),
       payload.event = some "charge.success" → payload.data = some d →
       d.reference = some r → findPayment db.payments r = some p →
       p.status ≠ "successful" →
       env.verify_transaction r = some ("success", p.amountNgn) →
       py_startswith p.lockedPriceRef "renewal:" = true →
       ((py_split p.lockedPriceRef ':')[1]?).bind py_int? = some nid →
       findNumber db.numbers nid = some n →
       env.renew_rental_number n.serviceCode n.countryCode
         (countryName (env.get_countries true) n.countryCode) n.phoneNumber = true →
       findNumber (process_webhook_event env db payload).db.numbers nid
         = some { n with expiresAt := n.expiresAt + 259200, renewalNoticeSent := false } ∧
       n.expiresAt < n.expiresAt + 259200) ∧
    (∀ (now_utc : Int) (n : Number), now_utc < n.expiresAt →
       rental_expiry_flip now_utc n = n) ∧
    (∀ (now_utc : Int) (ns : List Number), (∀ n ∈ ns, now_utc < n.expiresAt) →
       rental_expiry_pass now_utc ns = ns) := by
  refine ⟨?_, rental_expiry_flip_future, rental_expiry_pass_future⟩
  intro env db payload d r p nid n h1 h2 h3 h4 h5 hv hr hparse hfind hrenew
  have hrun := process_verified_success env db payload d r p h1 h2 h3 h4 h5 hv
  rw [provision_renewal_success env
      { db with payments := updatePaymentStatus db.payments r "successful" }
      { p with status := "successful" }
      { WebhookEffects.zero with verifyCalls := 1 }
      nid n hr hparse hfind hrenew] at hrun
  constructor
  · have hnum : (process_webhook_event env db payload).db.numbers
        = db.numbers.map (renew_number_update n) := by
      rw [hrun]
    rw [hnum]
    exact findNumber_renew db.numbers nid n hfind
  · omega

/-- C8 witness: renewing `nRental` through the webhook moves its expiry from
1700000000 to 1700259200 and clears the notice flag; and a Number expiring
in the future survives the expiry pass. -/
theorem C8_rental_monotonic_expiry_witness :
    findNumber (process_webhook_event envRenewal dbRenewal payloadRenewal).db.numbers 7
      = some { nRental with
               expiresAt := nRental.expiresAt + 259200,
               renewalNoticeSent := false } ∧
    rental_expiry_pass 1600000000 [nRental] = [nRental] := by
  have ha := C8_rental_monotonic_expiry.1 envRenewal dbRenewal payloadRenewal
    { reference := some "pva-1-ref2", amount := some 80000 } "pva-1-ref2" pRenewal 7 nRental
    rfl rfl rfl (by decide) (by decide) rfl (by decide) (by decide) (by decide) rfl
  have hb := C8_rental_monotonic_expiry.2.2 1600000000 [nRental] (by decide)
  exact ⟨ha.1, hb⟩

/-! ### Theorems about the SMS polling worker -/

/-- A `WAITING` response leaves the poll state untouched, whatever the
state. -/
lemma sms_poll_step_waiting (hashFn : String → Int) (countries : List Country)
    (d : SmsResponse) (hw : d.status = "WAITING") (s : SmsPollState) :
    sms_poll_step hashFn countries (some d) s = s := by
  unfold sms_poll_step
  cases hcn : countryName countries s.number.countryCode with
  | none => rfl
  | some cn => simp [hw]

/-- One poll step with a fixed response is idempotent: the second
application of the same response changes nothing. -/
lemma sms_poll_step_idem (hashFn : String → Int) (countries : List Country)
    (resp : Option SmsResponse) (s : SmsPollState) :
    sms_poll_step hashFn countries resp (sms_poll_step hashFn countries resp s)
      = sms_poll_step hashFn countries resp s := by
  rcases hcn : countryName countries s.number.countryCode with _ | cn
  · simp [sms_poll_step, hcn]
  · rcases resp with _ | d
    · simp [sms_poll_step, hcn]
    · by_cases hok : d.status = "OK"
      · by_cases hseen :
            s.lastSeenSmsId = some (pvaSmsId hashFn s.number.pvaActivationId d.code)
        · simp [sms_poll_step, hcn, hok, hseen]
        · simp [sms_poll_step, hcn, hok, hseen]
      · by_cases hw : d.status = "WAITING"
        · simp [sms_poll_step, hcn, hok, hw]
        · simp [sms_poll_step, hcn, hok, hw]

/-- Any positive number of repetitions of the same poll step collapses to a
single step. -/
lemma sms_poll_iterate (hashFn : String → Int) (countries : List Country)
    (resp : Option SmsResponse) (s : SmsPollState) (k : Nat) :
    (sms_poll_step hashFn countries resp)^[k + 1] s
      = sms_poll_step hashFn countries resp s := by
  induction k with
  | zero => rfl
  | succ k ih =>
    rw [Function.iterate_succ_apply', ih, sms_poll_step_idem]

/-- One poll step persists at most one row and sends at most one
notification. -/
lemma sms_poll_step_counts (hashFn : String → Int) (countries : List Country)
    (resp : Option SmsResponse) (s : SmsPollState) :
    (sms_poll_step hashFn countries resp s).smsRows.length ≤ s.smsRows.length + 1 ∧
    (sms_poll_step hashFn countries resp s).notificationsSent
      ≤ s.notificationsSent + 1 := by
  rcases hcn : countryName countries s.number.countryCode with _ | cn
  · simp [sms_poll_step, hcn]
  · rcases resp with _ | d
    · simp [sms_poll_step, hcn]
    · by_cases hok : d.status = "OK"
      · by_cases hseen :
            s.lastSeenSmsId = some (pvaSmsId hashFn s.number.pvaActivationId d.code)
        · simp [sms_poll_step, hcn, hok, hseen]
        · simp [sms_poll_step, hcn, hok, hseen]
      · by_cases hw : d.status = "WAITING"
        · simp [sms_poll_step, hcn, hok, hw]
        · simp [sms_poll_step, hcn, hok, hw]

/-- C7: repeatedly polling one Number with an unchanged response — a
`WAITING` response or the identical message — persists at most one SmsMessage
row and sends at most one notification; a `WAITING` response changes nothing
at all; and a message is persisted and notified exactly when its computed
identifier (activation id combined with the hash of the text) differs from
the per-Number last-seen marker. -/
theorem C7_sms_dedup (hashFn : String → Int) (countries : List Country)
    (d : SmsResponse) (st : SmsPollState) (k : Nat) :
    (d.status = "WAITING" →
       (sms_poll_step hashFn countries (some d))^[k] st = st) ∧
    ((sms_poll_step hashFn countries (some d))^[k] st).smsRows.length
      ≤ st.smsRows.length + 1 ∧
    ((sms_poll_step hashFn countries (some d))^[k] st).notificationsSent
      ≤ st.notificationsSent + 1 ∧
    (d.status = "OK" →
       st.lastSeenSmsId = some (pvaSmsId hashFn st.number.pvaActivationId d.code) →
       sms_poll_step hashFn countries (some d) st = st) ∧
    (∀ cn : String, d.status = "OK" →
       countryName countries st.number.countryCode = some cn →
       st.lastSeenSmsId ≠ some (pvaSmsId hashFn st.number.pvaActivationId d.code) →
       sms_poll_step hashFn countries (some d) st
         = { st with
             smsRows := st.smsRows ++
               [{ numberId := st.number.id,
                  pvaSmsId := pvaSmsId hashFn st.number.pvaActivationId d.code,
                  fullText := d.code,
                  verificationCode := extract_code d.code }],
             notificationsSent := st.notificationsSent + 1,
             lastSeenSmsId :=
               some (pvaSmsId hashFn st.number.pvaActivationId d.code) }) := by
  refine ⟨?_, ?_, ?_, ?_, ?_⟩
  · intro hw
    exact Function.iterate_fixed (sms_poll_step_waiting hashFn countries d hw st) k
  · cases k with
    | zero => simp
    | succ j =>
      rw [sms_poll_iterate]
      exact (sms_poll_step_counts hashFn countries (some d) st).1
  · cases k with
    | zero => simp
    | succ j =>
      rw [sms_poll_iterate]
      exact (sms_poll_step_counts hashFn countries (some d) st).2
  · intro hok hseen
    unfold sms_poll_step
    cases hcn : countryName countries st.number.countryCode with
    | none => rfl
    | some cn => simp [hok, hseen]
  · intro cn hok hcn hseen
    unfold sms_poll_step
    simp [hcn, hok, hseen]

/-- C7 witness: a fresh `OK` message is persisted once with its identifier
recorded, and three identical polls still persist at most one row. -/
theorem C7_sms_dedup_witness :
    sms_poll_step testHash testCountriesSms (some testSmsResponse) testSmsState
      = { testSmsState with
          smsRows := testSmsState.smsRows ++
            [{ numberId := testSmsState.number.id,
               pvaSmsId := pvaSmsId testHash testSmsState.number.pvaActivationId
                 testSmsResponse.code,
               fullText := testSmsResponse.code,
               verificationCode := extract_code testSmsResponse.code }],
          notificationsSent := testSmsState.notificationsSent + 1,
          lastSeenSmsId :=
            some (pvaSmsId testHash testSmsState.number.pvaActivationId
              testSmsResponse.code) } ∧
    ((sms_poll_step testHash testCountriesSms (some testSmsResponse))^[3]
        testSmsState).smsRows.length ≤ testSmsState.smsRows.length + 1 := by
  have h := C7_sms_dedup testHash testCountriesSms testSmsResponse testSmsState 3
  exact ⟨h.2.2.2.2 "Malaysia" rfl (by decide) (by decide), h.2.1⟩

end Numrow
